import Mathlib

/-!
Shallow embedding of the PyMart client (`PyMart/base.py`).

The repository is a thin client for the BioMart web service.  The pure,
verifiable core consists of: fuzzy species lookup over the dataset table
(`DataBase.find_species`), parsing attribute-page XML into flat attribute
rows (`DataSet.populate_attributes`), deriving the homology table from
attribute names (`DataSet.populate_homology`), selecting homology attribute
names (`DataSet.extract_homology_attributes`), and building the XML query
document (`DataSet.fetch` / `DataSet.add_filters` / `DataSet.add_attributes`).

One defect shapes the homology embedding: `DataSet.__post_init__` assigns a
local variable `_homology` instead of `self._homology`, and the dataclass
field has `init=False` with no default, so the instance attribute is never
created and every read of it raises `AttributeError`.  The homology
functions are therefore embedded in two layers: the faithful entry points
(`populate_homology`, `homology`, `extract_homology_attributes`), which
take the `_homology` slot as an argument and raise exactly as the source
does, and the bodies sitting behind the defective guard (`derive_homology`,
`extract_homology_from`), against which the derivation claims are checked.

HTTP transport, pandas dataframes and the XML library are external
collaborators; dataframes are embedded as lists of rows, XML element trees
as an inductive tree, and Python values appearing in filter dictionaries as
the inductive type `PyVal`.  Every definition mirrors the corresponding
Python code; comments note the source lines.
-/

namespace PyMart

/-- A scalar Python value that can appear in a user-supplied filter
dictionary: a boolean, a string, an integer, or `None`. -/
inductive PyScalar where
  | bool : Bool → PyScalar
  | str : String → PyScalar
  | int : Int → PyScalar
  | none : PyScalar
  deriving Repr, DecidableEq

/-- A Python value appearing in a filter dictionary: a scalar, or a list
(also standing for a tuple) of scalars.  Python would allow arbitrary
nesting, but the client only ever joins list elements with `str()`, so
scalar elements model every meaningful input. -/
inductive PyVal where
  | scalar : PyScalar → PyVal
  | list : List PyScalar → PyVal
  deriving Repr, DecidableEq

/-- Shorthand for a Python boolean value. -/
@[match_pattern] def PyVal.bool (b : Bool) : PyVal := .scalar (.bool b)

/-- Shorthand for a Python string value. -/
@[match_pattern] def PyVal.str (s : String) : PyVal := .scalar (.str s)

/-- Shorthand for a Python integer value. -/
@[match_pattern] def PyVal.int (n : Int) : PyVal := .scalar (.int n)

/-- Shorthand for Python `None`. -/
@[match_pattern] def PyVal.none : PyVal := .scalar .none

/-- Python `str()` of a scalar. -/
def strOfPyScalar : PyScalar → String
  | .bool true => "True"
  | .bool false => "False"
  | .str s => s
  | .int n => toString n
  | .none => "None"

/-- Python `str()` of a value, as used in the f-string of the
boolean-filter error message.  (Python's `str` of a list prints element
`repr`s; no claim stringifies a whole list, the `.list` case is present
only to keep the function total.) -/
def strOfPyVal : PyVal → String
  | .scalar s => strOfPyScalar s
  | .list xs => "[" ++ String.intercalate ", " (xs.map strOfPyScalar) ++ "]"

/-- Boolean infix test on lists (the computational content of pandas
`str.contains(..., regex=False)` on one cell). -/
def isInfixOfList [BEq α] (pat : List α) : List α → Bool
  | [] => pat.isEmpty
  | a :: t => pat.isPrefixOf (a :: t) || isInfixOfList pat t

/-- Lower-case a character (ASCII, which covers the names this client
matches; Python's `case=False` matching lower-cases both sides). -/
def lowerChar (c : Char) : Char := c.toLower

/-- Case-insensitive literal substring test: pandas
`Series.str.contains(pat, case=False, regex=False)`. -/
def ciContains (hay pat : String) : Bool :=
  isInfixOfList (pat.data.map lowerChar) (hay.data.map lowerChar)

/-- Replacement with an empty pattern: Python inserts the replacement
before every character and once at the end. -/
def insertEverywhere (rep : List Char) : List Char → List Char
  | [] => rep
  | c :: cs => rep ++ c :: insertEverywhere rep cs

/-- Replacement with a non-empty pattern, scanning left to right and
replacing every non-overlapping occurrence.  `fuel` only bounds the
recursion; every step consumes at least one character, so starting it at
the string's length never exhausts it. -/
def replaceCore (pat rep : List Char) : Nat → List Char → List Char
  | _, [] => []
  | 0, cs => cs
  | fuel + 1, c :: cs' =>
    if pat.isPrefixOf (c :: cs') then
      rep ++ replaceCore pat rep fuel (cs'.drop (pat.length - 1))
    else
      c :: replaceCore pat rep fuel cs'

/-- Python `str.replace(pat, rep)`: replace every non-overlapping occurrence
of `pat`, scanning left to right.  An empty pattern inserts `rep` before
every character and once at the end (Python semantics). -/
def pyReplaceList (cs pat rep : List Char) : List Char :=
  match pat with
  | [] => insertEverywhere rep cs
  | _ :: _ => replaceCore pat rep cs.length cs

/-- Python `str.replace` on strings. -/
def pyReplace (s pat rep : String) : String :=
  String.mk (pyReplaceList s.data pat.data rep.data)

/-- Token of the regular-expression subset this embedding models: a literal
character, or `.` (any character except a newline). -/
inductive RTok where
  | lit : Char → RTok
  | dot : RTok
  deriving Repr, DecidableEq

/-- Whether one regex token matches one character, case-insensitively
(`re.IGNORECASE`, as pandas `str.contains(..., case=False)` compiles). -/
def rtokMatches : RTok → Char → Bool
  | .lit c, d => lowerChar c == lowerChar d
  | .dot, d => d != '\n'

/-- Whether the token list matches a prefix of the character list. -/
def rmatchHere : List RTok → List Char → Bool
  | [], _ => true
  | _ :: _, [] => false
  | t :: ts, c :: cs => rtokMatches t c && rmatchHere ts cs

/-- `re.search`: the token list matches at some position of the string. -/
def rsearch (toks : List RTok) : List Char → Bool
  | [] => rmatchHere toks []
  | c :: cs => rmatchHere toks (c :: cs) || rsearch toks cs

/-- Compile a pattern string to tokens: `.` is the any-character
metacharacter, every other character is a literal.  This models the pattern
subset exercised by the development (species names plus the `.`
metacharacter); other regex metacharacters are outside the model. -/
def compileTokens (pat : String) : List RTok :=
  pat.data.map (fun c => if c == '.' then RTok.dot else RTok.lit c)

/-- Case-insensitive regex search, as pandas
`Series.str.contains(pat, case=False, regex=True)` performs per cell. -/
def regexContainsCI (hay pat : String) : Bool :=
  rsearch (compileTokens pat) hay.data

/-- One row of a `DataBase.datasets` dataframe (columns `name`,
`display_name`; `base.py` lines 220-224). -/
structure DatasetRow where
  name : String
  display_name : String
  deriving Repr, DecidableEq

/-- The part of a `DataBase` instance relevant to species lookup: its
internal `name` and its populated `datasets` table. -/
structure DataBase where
  name : String
  datasets : List DatasetRow
  deriving Repr, DecidableEq

/-- `DataBase.find_species` (`base.py` lines 237-257).  The first pass
matches the query case-insensitively as a regex against both `display_name`
and `name`; on zero matches the query's underscores are replaced by spaces
and only `display_name` is re-matched; on zero matches again a `ValueError`
is raised naming the underscore-replaced query.  Errors are embedded as
`Except.error` of the exception message. -/
def find_species (db : DataBase) (specie : String) : Except String (List DatasetRow) :=
  if db.datasets.isEmpty then
    if db.name == "" then .error "No name for a given database"
    else .error "No datasets found for name"
  else
    let result := db.datasets.filter (fun r =>
      regexContainsCI r.display_name specie || regexContainsCI r.name specie)
    if result.length == 0 then
      let specie2 := pyReplace specie "_" " "
      let result2 := db.datasets.filter (fun r => regexContainsCI r.display_name specie2)
      if result2.length == 0 then
        .error ("Database does not contain \x27" ++ specie2 ++ "\x27")
      else .ok result2
    else .ok result

/-- One attribute row (`Attribute` dataclass, `base.py` lines 318-328). -/
structure Attribute where
  name : String
  display_name : String
  description : String
  default : Bool
  deriving Repr, DecidableEq

/-- One filter row (`Filter` dataclass, `base.py` lines 331-344).  The
`options` sub-table is a list of attribute dictionaries of the child XML
nodes; only `name`, `display_name` and `type` matter to query building. -/
structure Filter where
  name : String
  display_name : String
  description : String
  type : String
  operator : String
  sub_options : Bool
  options : List (List (String × String))
  deriving Repr, DecidableEq

/-- The XML attributes of one `AttributeDescription` node of the
configuration XML, as read by `populate_attributes`: `internalName` is
accessed unconditionally, the others via `attrib.get` with default `""`
(`default` with its raw string value). -/
structure AttributeDescription where
  internalName : String
  displayName : Option String
  description : Option String
  default : Option String
  deriving Repr, DecidableEq

/-- The attribute row built for one `AttributeDescription` appearing on the
attribute page with index `page_index` (`base.py` lines 430-440):
the row is default exactly when the XML says `default="true"` and the page
is the first one. -/
def mkAttribute (page_index : Nat) (desc : AttributeDescription) : Attribute :=
  { name := desc.internalName,
    display_name := desc.displayName.getD "",
    description := desc.description.getD "",
    default := (desc.default.getD "" == "true") && (page_index == 0) }

/-- Iteration of `populate_attributes` over the pages, carrying the running
`page_index` of `enumerate` (`base.py` line 430). -/
def populate_attributes_aux (page_index : Nat) :
    List (List AttributeDescription) → List Attribute
  | [] => []
  | page :: rest =>
    page.map (mkAttribute page_index) ++ populate_attributes_aux (page_index + 1) rest

/-- `DataSet.populate_attributes` (`base.py` lines 425-441): flatten the
`AttributeDescription` nodes of all `AttributePage` nodes, in page order, to
attribute rows. -/
def populate_attributes (pages : List (List AttributeDescription)) : List Attribute :=
  populate_attributes_aux 0 pages

/-- `match_homology` (`base.py` lines 479-484): `re.match` of the pattern
`(?P<spc>[^_]*)_homolog_(?P<wht>.*$)` against an attribute name.  Because
`[^_]*` cannot cross an underscore, a match forces the literal `_homolog_`
to sit at the first underscore of the name; the species group is everything
before that underscore and the qualifier group is everything after
`homolog_`.  `.` does not match a newline and `$` also matches just before
a single trailing newline, so a qualifier may not contain a newline except
one at the very end, which is not captured. -/
def match_homology (s : String) : Option (String × String) :=
  let cs := s.data
  let pre := cs.takeWhile (fun c => c != '_')
  match cs.drop pre.length with
  | [] => Option.none
  | _ :: tail =>
    if ("homolog_".data).isPrefixOf tail then
      let wht := tail.drop 8
      if wht.all (fun c => c != '\n') then
        some (String.mk pre, String.mk wht)
      else if wht.getLast? == some '\n' && wht.dropLast.all (fun c => c != '\n') then
        some (String.mk pre, String.mk wht.dropLast)
      else Option.none
    else Option.none

/-- One row of the derived homology dataframe (`populate_homology`,
`base.py` lines 471-502): the surviving columns `name`, `display_name` plus
the derived `specie_name`, `qualifier_name`, `specie_display_name`,
`qualifier_display_name`. -/
structure HomologyRow where
  name : String
  display_name : String
  specie_name : String
  qualifier_name : String
  specie_display_name : String
  qualifier_display_name : String
  deriving Repr, DecidableEq

/-- Step one of `populate_homology` (`base.py` lines 476-477): keep the
attributes whose internal name contains `"homolog"` (a literal,
case-sensitive pandas `str.contains`). -/
def homolog_filter (attributes : List Attribute) : List Attribute :=
  attributes.filter (fun a => isInfixOfList ("homolog".data) a.name.data)

/-- Steps two and three of `populate_homology` (`base.py` lines 486-489):
parse each remaining name with `match_homology` and drop the rows whose
species group is NA (the non-matching names). -/
def parsed_homology (attributes : List Attribute) : List (Attribute × String × String) :=
  (homolog_filter attributes).filterMap
    (fun a => (match_homology a.name).map (fun p => (a, p.1, p.2)))

/-- The `species_mapper` dictionary (`base.py` lines 492-497): from the rows
whose qualifier is `"ensembl_gene"`, map the species name to the row's
display name with the literal substring `"gene stable ID"` removed.
`dict(zip(..))` lets a later binding overwrite an earlier one, so lookups
read the last matching pair. -/
def species_mapper (attributes : List Attribute) : List (String × String) :=
  ((parsed_homology attributes).filter (fun t => t.2.2 == "ensembl_gene")).map
    (fun t => (t.2.1, pyReplace t.1.display_name "gene stable ID" ""))

/-- Last binding of a key in an association list (Python dict built by
`dict(zip(keys, values))`). -/
def lookupLast (l : List (String × String)) (k : String) : Option String :=
  ((l.filter (fun p => p.1 == k)).getLast?).map (fun p => p.2)

/-- The homology row built from one parsed attribute (`base.py` lines
498-501).  When the species has no `"ensembl_gene"` row the pandas `map`
produces NaN and the following string `replace` raises a `TypeError`; that
is embedded as `Option.none`. -/
def homology_row (mapper : List (String × String)) (t : Attribute × String × String) :
    Option HomologyRow :=
  match lookupLast mapper t.2.1 with
  | some lbl =>
    some { name := t.1.name,
           display_name := t.1.display_name,
           specie_name := t.2.1,
           qualifier_name := t.2.2,
           specie_display_name := lbl,
           qualifier_display_name := pyReplace t.1.display_name lbl "" }
  | Option.none => Option.none

/-- Row-wise application of a fallible construction, failing as soon as one
row fails (the first raised exception aborts the pandas `apply`). -/
def mapRows (f : α → Option β) : List α → Option (List β)
  | [] => some []
  | a :: l =>
    match f a, mapRows f l with
    | some b, some bs => some (b :: bs)
    | _, _ => Option.none

/-- The table-derivation body of `populate_homology` (`base.py` lines
476-502), i.e. everything after the guard on line 473: `Option.none`
embeds the run that raises a `TypeError` because some parsed species lacks
an `"ensembl_gene"` row.  This body is reachable only when the read of
`self._homology` in the guard succeeds — which, see `post_init_homology`,
it never does on an instance built by the constructor. -/
def derive_homology (attributes : List Attribute) : Option (List HomologyRow) :=
  mapRows (homology_row (species_mapper attributes)) (parsed_homology attributes)

/-- The `_homology` slot of a `DataSet` right after construction.
`__post_init__` (`base.py` lines 385-386) assigns a LOCAL variable
`_homology = pd.DataFrame()` instead of `self._homology`, and the dataclass
field is declared `field(init=False)` with no default, so the dataclass
machinery removes the class attribute and nothing ever creates the
instance attribute.  A missing attribute — whose read raises
`AttributeError` — is embedded as `Option.none`; the single assignment to
`self._homology` (line 502) sits behind a read of the slot and is
unreachable, so every run of the program carries this slot value. -/
def post_init_homology : Option (List HomologyRow) := Option.none

/-- `DataSet.populate_homology` (`base.py` lines 471-502) as the source
actually behaves, given the current `_homology` slot: the guard
`len(self._homology) > 0 and not force` (line 473) reads the slot before
anything else — even before `not force` — so a missing slot raises
`AttributeError` (embedded as `Except.error` of that exception's message)
on every call, whatever `force` is.  With a present, non-empty slot and
`force=False` the cached table is returned; otherwise the table is derived
by `derive_homology` and stored (a derivation `TypeError` is embedded by a
fixed marker string, its real message being environment-specific).  The
result is the value of the slot after the call. -/
def populate_homology (slot : Option (List HomologyRow)) (force : Bool)
    (attributes : List Attribute) : Except String (List HomologyRow) :=
  match slot with
  | Option.none => .error "\x27DataSet\x27 object has no attribute \x27_homology\x27"
  | some cached =>
    if 0 < cached.length && !force then .ok cached
    else
      match derive_homology attributes with
      | some hm => .ok hm
      | Option.none => .error "TypeError in populate_homology"

/-- The `homology` property (`base.py` lines 418-423): reading
`len(self._homology)` raises `AttributeError` when the slot is missing;
an empty slot is populated first; a non-empty slot is returned as is. -/
def homology (slot : Option (List HomologyRow)) (attributes : List Attribute) :
    Except String (List HomologyRow) :=
  match slot with
  | Option.none => .error "\x27DataSet\x27 object has no attribute \x27_homology\x27"
  | some cached =>
    if cached.length == 0 then populate_homology (some cached) false attributes
    else .ok cached

/-- The per-species selection `sp_df` inside `extract_homology_attributes`
(`base.py` lines 669-670): case-insensitive literal substring match of the
queried species against `specie_name` and `specie_display_name`. -/
def species_rows (hm : List HomologyRow) (specie : String) : List HomologyRow :=
  hm.filter (fun r =>
    ciContains r.specie_name specie || ciContains r.specie_display_name specie)

/-- The selection body of `extract_homology_attributes` (`base.py` lines
667-676), applied to a homology table: concatenate the per-species
selections, keep the rows whose `qualifier_name` is exactly one of the
queried qualifiers, and return the attribute names. -/
def extract_homology_from (hm : List HomologyRow) (species query : List String) :
    List String :=
  (((species.map (species_rows hm)).flatten).filter
    (fun r => query.contains r.qualifier_name)).map (fun r => r.name)

/-- `DataSet.extract_homology_attributes` (`base.py` lines 636-676) as the
source actually behaves: its first statement, `hm = self.homology`
(line 665), reads the `_homology` slot through the `homology` property and
therefore raises `AttributeError` whenever the slot is missing — which it
is on every constructed instance, see `post_init_homology` — before any
species or qualifier matching happens. -/
def extract_homology_attributes (slot : Option (List HomologyRow))
    (attributes : List Attribute) (species query : List String) :
    Except String (List String) :=
  match homology slot attributes with
  | .error e => .error e
  | .ok hm => .ok (extract_homology_from hm species query)

/-- An XML element as built by `xml.etree.ElementTree`: tag, attributes in
the order `set`, and child elements in the order appended. -/
inductive XmlElem where
  | elem : String → List (String × String) → List XmlElem → XmlElem

/-- Tag of an element. -/
def XmlElem.tag : XmlElem → String
  | .elem t _ _ => t

/-- Attribute list of an element. -/
def XmlElem.attrs : XmlElem → List (String × String)
  | .elem _ a _ => a

/-- Children of an element. -/
def XmlElem.children : XmlElem → List XmlElem
  | .elem _ _ c => c

/-- `DataSet.add_attributes` (`base.py` lines 531-535): one `Attribute`
subelement carrying the attribute's internal name. -/
def add_attributes (name : String) : XmlElem :=
  .elem "Attribute" [("name", name)] []

/-- `filter_query.get(key, None)` composed with the `is None` tests of
`add_filters`: a key bound to Python `None` behaves like an absent key.
The user dictionary is embedded as an association list with unique keys, so
the first binding is read. -/
def lookupVal (fq : List (String × PyVal)) (k : String) : Option PyVal :=
  match ((fq.filter (fun p => p.1 == k)).head?).map (fun p => p.2) with
  | some (PyVal.scalar PyScalar.none) => Option.none
  | some v => some v
  | Option.none => Option.none

/-- `DataSet.add_filters` (`base.py` lines 537-563): resolve the value for
a selected filter row from the user dictionary by internal name, then by
display name; a missing value is a `ValueError` naming the row's internal
name.  A boolean-typed filter maps the value `True` itself or the strings
`"included"`/`"only"` to `excluded="0"`, the value `False` itself or the
string `"excluded"` to `excluded="1"`, and anything else to a `ValueError`;
a list or tuple value is joined with commas; any other value is
stringified.  (Python raises the boolean `ValueError` after the `Filter`
subelement was created, but the exception aborts `fetch`, so the partially
built tree is never submitted; the embedding returns only the error.) -/
def add_filters (filter_row : Filter) (filter_query : List (String × PyVal)) :
    Except String XmlElem :=
  let value :=
    match lookupVal filter_query filter_row.name with
    | some v => some v
    | Option.none => lookupVal filter_query filter_row.display_name
  match value with
  | Option.none =>
    .error ("There is no value specified for key \x27" ++ filter_row.name ++ "\x27")
  | some v =>
    if filter_row.type == "boolean" then
      if v == PyVal.bool true || v == PyVal.str "included" || v == PyVal.str "only" then
        .ok (.elem "Filter" [("name", filter_row.name), ("excluded", "0")] [])
      else if v == PyVal.bool false || v == PyVal.str "excluded" then
        .ok (.elem "Filter" [("name", filter_row.name), ("excluded", "1")] [])
      else
        .error ("Invalid value for boolean filter : " ++ strOfPyVal v)
    else
      match v with
      | PyVal.list xs =>
        .ok (.elem "Filter"
          [("name", filter_row.name),
           ("value", String.intercalate "," (xs.map strOfPyScalar))] [])
      | _ =>
        .ok (.elem "Filter" [("name", filter_row.name), ("value", strOfPyVal v)] [])

/-- The part of a `DataSet` instance that query building reads: its internal
`name`, its `virtual_schema`, and its populated attribute and filter
tables. -/
structure DataSet where
  name : String
  virtual_schema : String
  attributes : List Attribute
  filters : List Filter

/-- Attribute selection inside `fetch` (`base.py` lines 613-617): `None`
falls back to the default-flagged attributes; otherwise keep the table rows
whose `name` or `display_name` is exactly (case-sensitively) one of the
user-supplied strings — `Series.isin`. -/
def select_attributes (table : List Attribute) (attributes : Option (List String)) :
    List Attribute :=
  match attributes with
  | Option.none => table.filter (fun a => a.default)
  | some names =>
    table.filter (fun a => names.contains a.name || names.contains a.display_name)

/-- Filter selection inside `fetch` (`base.py` lines 622-624): keep the
filter rows whose `name` or `display_name` is exactly one of the keys of
the user dictionary. -/
def select_filters (table : List Filter) (keys : List String) : List Filter :=
  table.filter (fun f => keys.contains f.name || keys.contains f.display_name)

/-- Row-wise application of a construction that can raise, stopping at the
first raised exception (the semantics of a pandas `apply` whose function
raises). -/
def mapExcept (f : α → Except ε β) : List α → Except ε (List β)
  | [] => .ok []
  | a :: l =>
    match f a with
    | .error e => .error e
    | .ok b =>
      match mapExcept f l with
      | .error e => .error e
      | .ok bs => .ok (b :: bs)

/-- The `Filter` subelements produced by `filter_df.apply(add_filters, ...)`
(`base.py` lines 622-626); the first `ValueError` aborts the whole
construction. -/
def filter_nodes (ds : DataSet) (filters : Option (List (String × PyVal))) :
    Except String (List XmlElem) :=
  match filters with
  | Option.none => .ok []
  | some fq =>
    mapExcept (fun f => add_filters f fq)
      (select_filters ds.filters (fq.map (fun p => p.1)))

/-- The query-construction part of `DataSet.fetch` (`base.py` lines
602-628): the root `Query` element carries the virtual schema name, the
`CSV` formatter, the header flag `"1"`, `uniqueRows` equal to
`str(int(only_unique))`, and the constant `datasetConfigVersion="0.6"`; its
single child is the `Dataset` element named after the dataset, whose
children are the selected `Attribute` subelements followed by the `Filter`
subelements.  The HTTP submission and CSV parsing happen only after this
tree is fully built, so an `Except.error` is raised before any query is
submitted. -/
def fetch (ds : DataSet) (attributes : Option (List String))
    (filters : Option (List (String × PyVal))) (only_unique : Bool) :
    Except String XmlElem :=
  match filter_nodes ds filters with
  | .error e => .error e
  | .ok fns =>
    .ok (.elem "Query"
      [("virtualSchemaName", ds.virtual_schema), ("formatter", "CSV"), ("header", "1"),
       ("uniqueRows", if only_unique then "1" else "0"), ("datasetConfigVersion", "0.6")]
      [.elem "Dataset" [("name", ds.name), ("interface", "default")]
        (((select_attributes ds.attributes attributes).map (fun a => add_attributes a.name))
          ++ fns)])

/-! ### General lemmas about the embedding's combinators -/

/-- Every element produced by a successful `mapRows` run comes from some
source row. -/
theorem mapRows_mem_source {α β : Type} {f : α → Option β} :
    ∀ {l : List α} {l' : List β}, mapRows f l = some l' →
      ∀ b ∈ l', ∃ a ∈ l, f a = some b := by
  intro l
  induction l with
  | nil =>
    intro l' h b hb
    simp [mapRows] at h
    subst h
    simp at hb
  | cons a t ih =>
    intro l' h b hb
    unfold mapRows at h
    cases hfa : f a with
    | none => rw [hfa] at h; simp at h
    | some b0 =>
      rw [hfa] at h
      cases hmt : mapRows f t with
      | none => rw [hmt] at h; simp at h
      | some bs =>
        rw [hmt] at h
        simp at h
        subst h
        rcases List.mem_cons.mp hb with hb | hb
        · exact ⟨a, List.mem_cons_self a t, by rw [hfa, hb]⟩
        · obtain ⟨a', ha', hfa'⟩ := ih hmt b hb
          exact ⟨a', List.mem_cons_of_mem a ha', hfa'⟩

/-- Every source row of a successful `mapRows` run produces some element. -/
theorem mapRows_mem_target {α β : Type} {f : α → Option β} :
    ∀ {l : List α} {l' : List β}, mapRows f l = some l' →
      ∀ a ∈ l, ∃ b ∈ l', f a = some b := by
  intro l
  induction l with
  | nil =>
    intro l' _ a ha
    simp at ha
  | cons a t ih =>
    intro l' h a' ha'
    unfold mapRows at h
    cases hfa : f a with
    | none => rw [hfa] at h; simp at h
    | some b0 =>
      rw [hfa] at h
      cases hmt : mapRows f t with
      | none => rw [hmt] at h; simp at h
      | some bs =>
        rw [hmt] at h
        simp at h
        subst h
        rcases List.mem_cons.mp ha' with ha' | ha'
        · exact ⟨b0, List.mem_cons_self b0 bs, by rw [ha', hfa]⟩
        · obtain ⟨b, hb, hfb⟩ := ih hmt a' ha'
          exact ⟨b, List.mem_cons_of_mem b0 hb, hfb⟩

/-- If one row raises, the whole `mapExcept` run raises (possibly an earlier
row's exception). -/
theorem mapExcept_error_of_mem {α ε β : Type} {f : α → Except ε β} :
    ∀ {l : List α} {a : α} {e : ε}, a ∈ l → f a = .error e →
      ∃ e', mapExcept f l = .error e' := by
  intro l
  induction l with
  | nil =>
    intro a e ha _
    simp at ha
  | cons b t ih =>
    intro a e ha hfa
    rcases List.mem_cons.mp ha with rfl | ha
    · exact ⟨e, by simp [mapExcept, hfa]⟩
    · cases hfb : f b with
      | error e'' => exact ⟨e'', by simp [mapExcept, hfb]⟩
      | ok v =>
        obtain ⟨e', he'⟩ := ih ha hfa
        exact ⟨e', by simp [mapExcept, hfb, he']⟩

/-- The attribute built from the description at page index `i` is among the
rows produced by the page iteration started at index `j`. -/
theorem mem_populate_attributes_aux
    (pages : List (List AttributeDescription)) :
    ∀ (j i : Nat) (page : List AttributeDescription) (d : AttributeDescription),
      pages[i]? = some page → d ∈ page →
      mkAttribute (j + i) d ∈ populate_attributes_aux j pages := by
  induction pages with
  | nil =>
    intro j i page d hp _
    simp at hp
  | cons pg rest ih =>
    intro j i page d hp hd
    cases i with
    | zero =>
      simp at hp
      subst hp
      exact List.mem_append_left _ (List.mem_map_of_mem _ hd)
    | succ n =>
      simp at hp
      have h := ih (j + 1) n page d hp hd
      have harith : j + 1 + n = j + (n + 1) := by omega
      rw [harith] at h
      exact List.mem_append_right _ h

/-! ### The claims -/

/-- Claim C1 (counterexample): the claimed uniform matching policy fails in
two ways.  First, name matching in `fetch` is NOT case-insensitive
substring matching: the attribute table contains `ensembl_gene_id`, the
user-supplied name `ENSEMBL_GENE_ID` is a case-insensitive substring match
for it (second conjunct), yet `fetch` selects no attribute at all (first
and third conjuncts) because the selection uses exact, case-sensitive
`isin` equality.  Second, species and qualifier names supplied to
`extract_homology_attributes` are not "silently dropped without raising an
error": every call raises `AttributeError` on the never-initialized
`_homology` slot before any matching (fourth conjunct). -/
theorem claim_C1_counterexample :
    select_attributes [⟨"ensembl_gene_id", "Gene stable ID", "", false⟩]
      (some ["ENSEMBL_GENE_ID"]) = [] ∧
    ciContains "ensembl_gene_id" "ENSEMBL_GENE_ID" = true ∧
    fetch ⟨"hsapiens_gene_ensembl", "default",
        [⟨"ensembl_gene_id", "Gene stable ID", "", false⟩], []⟩
      (some ["ENSEMBL_GENE_ID"]) Option.none true =
      .ok (.elem "Query"
        [("virtualSchemaName", "default"), ("formatter", "CSV"), ("header", "1"),
         ("uniqueRows", "1"), ("datasetConfigVersion", "0.6")]
        [.elem "Dataset" [("name", "hsapiens_gene_ensembl"), ("interface", "default")] []]) ∧
    extract_homology_attributes post_init_homology
      [⟨"hsapiens_homolog_ensembl_gene", "Human gene stable ID", "", false⟩]
      ["human"] ["ensembl_gene"] =
      .error "\x27DataSet\x27 object has no attribute \x27_homology\x27" :=
  ⟨rfl, rfl, rfl, rfl⟩

/-- Claim C1 (amended): attribute and filter selection in `fetch` matches
user-supplied names by exact, case-sensitive equality against both the
internal and the display name; unmatched names there are silently dropped
(selection is a total filter, never an error), and a fetch whose attribute
list has one unmatched name alongside two matched names selects exactly
the two matched attributes.  Species and qualifier matching in
`extract_homology_attributes` never executes: every call raises
`AttributeError` on the never-initialized `_homology` slot (third
conjunct); in its unreachable selection body, species would be matched by
case-insensitive substring against the species name and the species
display name, and qualifiers by exact equality against the qualifier name
only (fourth conjunct). -/
theorem claim_C1_amended :
    (∀ (table : List Attribute) (ns : List String) (r : Attribute),
        r ∈ select_attributes table (some ns) ↔
          r ∈ table ∧ (ns.contains r.name = true ∨ ns.contains r.display_name = true)) ∧
    (∀ (table : List Filter) (keys : List String) (f : Filter),
        f ∈ select_filters table keys ↔
          f ∈ table ∧ (keys.contains f.name = true ∨ keys.contains f.display_name = true)) ∧
    (∀ (attributes : List Attribute) (species query : List String),
        extract_homology_attributes post_init_homology attributes species query =
          .error "\x27DataSet\x27 object has no attribute \x27_homology\x27") ∧
    (∀ (hm : List HomologyRow) (species query : List String) (n : String),
        n ∈ extract_homology_from hm species query →
          ∃ r ∈ hm, r.name = n ∧ query.contains r.qualifier_name = true ∧
            ∃ sp ∈ species,
              (ciContains r.specie_name sp || ciContains r.specie_display_name sp) = true) ∧
    (select_attributes
        [⟨"ensembl_gene_id", "Gene stable ID", "", true⟩,
         ⟨"chromosome_name", "Chromosome/scaffold name", "", true⟩,
         ⟨"strand", "Strand", "", false⟩]
        (some ["ensembl_gene_id", "Chromosome/scaffold name", "manbearpig_homology_perc"]) =
      [⟨"ensembl_gene_id", "Gene stable ID", "", true⟩,
       ⟨"chromosome_name", "Chromosome/scaffold name", "", true⟩]) := by
  refine ⟨?_, ?_, fun _ _ _ => rfl, ?_, by decide⟩
  · intro table ns r
    simp [select_attributes, List.mem_filter]
  · intro table keys f
    simp [select_filters, List.mem_filter]
  · intro hm species query n hn
    unfold extract_homology_from at hn
    obtain ⟨r, hr, rfl⟩ := List.mem_map.mp hn
    obtain ⟨hrf, hq⟩ := List.mem_filter.mp hr
    obtain ⟨l, hl, hrl⟩ := List.mem_flatten.mp hrf
    obtain ⟨sp, hsp, rfl⟩ := List.mem_map.mp hl
    obtain ⟨hrhm, hmatch⟩ := List.mem_filter.mp hrl
    exact ⟨r, hrhm, rfl, hq, sp, hsp, hmatch⟩

/-- Witness for C1 (amended): the characterization evaluated at a concrete
table and name list. -/
theorem claim_C1_amended_witness :
    ⟨"ensembl_gene_id", "Gene stable ID", "", true⟩ ∈
        select_attributes [⟨"ensembl_gene_id", "Gene stable ID", "", true⟩]
          (some ["ENSEMBL_GENE_ID"]) ↔
      (⟨"ensembl_gene_id", "Gene stable ID", "", true⟩ : Attribute) ∈
          [(⟨"ensembl_gene_id", "Gene stable ID", "", true⟩ : Attribute)] ∧
        (["ENSEMBL_GENE_ID"].contains "ensembl_gene_id" = true ∨
         ["ENSEMBL_GENE_ID"].contains "Gene stable ID" = true) :=
  claim_C1_amended.1 [⟨"ensembl_gene_id", "Gene stable ID", "", true⟩]
    ["ENSEMBL_GENE_ID"] ⟨"ensembl_gene_id", "Gene stable ID", "", true⟩

/-- Claim C3 (counterexample): the truthy Python value `1` supplied for a
boolean-typed filter does not produce an include directive; `add_filters`
raises the fatal "Invalid value" error instead, because the code tests
`value is True`, not truthiness. -/
theorem claim_C3_counterexample :
    add_filters ⟨"transcript_tsl", "Transcript Support Level", "", "boolean", "", false, []⟩
      [("transcript_tsl", PyVal.int 1)] =
      .error "Invalid value for boolean filter : 1" := rfl

/-- Claim C3 (amended): for a filter of type `"boolean"` whose value
resolves from the user dictionary, the Python value `True` itself or the
strings `"included"`/`"only"` produce the include directive
(`excluded="0"`), the value `False` itself or the string `"excluded"`
produce the exclude directive (`excluded="1"`), and every other value —
including truthy or falsy non-boolean values — raises the fatal
"Invalid value" input error. -/
theorem claim_C3_amended (row : Filter) (fq : List (String × PyVal)) (v : PyVal)
    (ht : row.type = "boolean") (hv : lookupVal fq row.name = some v) :
    ((v = PyVal.bool true ∨ v = PyVal.str "included" ∨ v = PyVal.str "only") →
      add_filters row fq = .ok (.elem "Filter" [("name", row.name), ("excluded", "0")] [])) ∧
    ((v = PyVal.bool false ∨ v = PyVal.str "excluded") →
      add_filters row fq = .ok (.elem "Filter" [("name", row.name), ("excluded", "1")] [])) ∧
    (¬(v = PyVal.bool true ∨ v = PyVal.str "included" ∨ v = PyVal.str "only" ∨
        v = PyVal.bool false ∨ v = PyVal.str "excluded") →
      add_filters row fq = .error ("Invalid value for boolean filter : " ++ strOfPyVal v)) := by
  refine ⟨?_, ?_, ?_⟩
  · rintro (rfl | rfl | rfl) <;> simp [add_filters, hv, ht]
  · rintro (rfl | rfl) <;> simp [add_filters, hv, ht] <;> decide
  · intro hother
    have h1 : (v == PyVal.bool true) = false := by
      simp [beq_iff_eq]; intro h; exact hother (Or.inl h)
    have h2 : (v == PyVal.str "included") = false := by
      simp [beq_iff_eq]; intro h; exact hother (Or.inr (Or.inl h))
    have h3 : (v == PyVal.str "only") = false := by
      simp [beq_iff_eq]; intro h; exact hother (Or.inr (Or.inr (Or.inl h)))
    have h4 : (v == PyVal.bool false) = false := by
      simp [beq_iff_eq]; intro h; exact hother (Or.inr (Or.inr (Or.inr (Or.inl h))))
    have h5 : (v == PyVal.str "excluded") = false := by
      simp [beq_iff_eq]; intro h; exact hother (Or.inr (Or.inr (Or.inr (Or.inr h))))
    simp [add_filters, hv, ht, h1, h2, h3, h4, h5]

/-- Witness for C3 (amended): the boolean `True` on a concrete boolean
filter yields the include directive. -/
theorem claim_C3_amended_witness :
    add_filters ⟨"transcript_tsl", "Transcript Support Level", "", "boolean", "", false, []⟩
      [("transcript_tsl", PyVal.bool true)] =
      .ok (.elem "Filter" [("name", "transcript_tsl"), ("excluded", "0")] []) :=
  (claim_C3_amended
    ⟨"transcript_tsl", "Transcript Support Level", "", "boolean", "", false, []⟩
    [("transcript_tsl", PyVal.bool true)] (PyVal.bool true) rfl rfl).1 (Or.inl rfl)

/-- Claim C10 (code bug): the `find_species` half of the claim is real
behavior — the query `hs.piens`, whose `.` is a metacharacter, selects the
dataset `hsapiens_gene_ensembl` although neither its name nor its display
name contains the literal substring (first three conjuncts).  The
contrasting half — literal species matching in
`extract_homology_attributes` — describes code the program can never
reach: every call raises `AttributeError` on the never-initialized
`_homology` slot before any matching (fourth conjunct).  The selection
body sitting behind that defect does match literally, as the claim says:
applied to a homology table it selects nothing for `hs.piens` and selects
the row for the literal `hsapiens` (last two conjuncts). -/
theorem claim_C10 :
    find_species
        ⟨"ENSEMBL_MART_ENSEMBL",
         [⟨"hsapiens_gene_ensembl", "Human genes (GRCh38.p14)"⟩]⟩ "hs.piens" =
      .ok [⟨"hsapiens_gene_ensembl", "Human genes (GRCh38.p14)"⟩] ∧
    ciContains "hsapiens_gene_ensembl" "hs.piens" = false ∧
    ciContains "Human genes (GRCh38.p14)" "hs.piens" = false ∧
    (∀ (attributes : List Attribute) (species query : List String),
      extract_homology_attributes post_init_homology attributes species query =
        .error "\x27DataSet\x27 object has no attribute \x27_homology\x27") ∧
    extract_homology_from
      [⟨"hsapiens_homolog_ensembl_gene", "Human gene stable ID",
        "hsapiens", "ensembl_gene", "Human ", "gene stable ID"⟩]
      ["hs.piens"] ["ensembl_gene"] = [] ∧
    extract_homology_from
      [⟨"hsapiens_homolog_ensembl_gene", "Human gene stable ID",
        "hsapiens", "ensembl_gene", "Human ", "gene stable ID"⟩]
      ["hsapiens"] ["ensembl_gene"] = ["hsapiens_homolog_ensembl_gene"] :=
  ⟨rfl, rfl, rfl, fun _ _ _ => rfl, rfl, rfl⟩

/-- Claim C4 (counterexample): the dataset table holds one row whose
internal name is `abc def` and whose display name is `zzz`.  The query
`abc_def` matches nothing on the first pass; the claim says the retry (with
underscores replaced by spaces) matches display AND internal names and that
a final failure names the caller's query `abc_def`.  In fact the retry
checks only display names — so the internal name `abc def`, an exact
case-insensitive match for the replaced query, is never consulted — and the
raised error names the replaced query `abc def`, not the supplied
`abc_def`. -/
theorem claim_C4_counterexample :
    find_species ⟨"ENSEMBL_MART_ENSEMBL", [⟨"abc def", "zzz"⟩]⟩ "abc_def" =
      .error "Database does not contain \x27abc def\x27" ∧
    ciContains "abc def" "abc def" = true := ⟨rfl, rfl⟩

/-- Claim C4 (amended): `find_species` first matches the query
case-insensitively (as a regex) against both the display and the internal
name; if that selects nothing it retries with every underscore replaced by
a space, matching against display names only; if the retry also selects
nothing it raises a "not found" error naming the underscore-replaced query
string. -/
theorem claim_C4_amended (db : DataBase) (specie : String) (hne : db.datasets ≠ []) :
    (db.datasets.filter (fun r =>
        regexContainsCI r.display_name specie || regexContainsCI r.name specie) ≠ [] →
      find_species db specie =
        .ok (db.datasets.filter (fun r =>
          regexContainsCI r.display_name specie || regexContainsCI r.name specie))) ∧
    (db.datasets.filter (fun r =>
        regexContainsCI r.display_name specie || regexContainsCI r.name specie) = [] →
      db.datasets.filter (fun r =>
        regexContainsCI r.display_name (pyReplace specie "_" " ")) ≠ [] →
      find_species db specie =
        .ok (db.datasets.filter (fun r =>
          regexContainsCI r.display_name (pyReplace specie "_" " ")))) ∧
    (db.datasets.filter (fun r =>
        regexContainsCI r.display_name specie || regexContainsCI r.name specie) = [] →
      db.datasets.filter (fun r =>
        regexContainsCI r.display_name (pyReplace specie "_" " ")) = [] →
      find_species db specie =
        .error ("Database does not contain \x27" ++ pyReplace specie "_" " " ++ "\x27")) := by
  have hem : db.datasets.isEmpty = false := by
    simp [List.isEmpty_iff]
    exact hne
  refine ⟨?_, ?_, ?_⟩
  · intro h1
    simp [find_species, hem, List.length_eq_zero, h1]
  · intro h1 h2
    simp [find_species, hem, List.length_eq_zero, h1, h2]
  · intro h1 h2
    simp [find_species, hem, List.length_eq_zero, h1, h2]

/-- Witness for C4 (amended): the first pass succeeds on a concrete
one-row table. -/
theorem claim_C4_amended_witness :
    find_species ⟨"ENSEMBL_MART_ENSEMBL",
        [⟨"hsapiens_gene_ensembl", "Human genes (GRCh38.p14)"⟩]⟩ "human" =
      .ok ([⟨"hsapiens_gene_ensembl", "Human genes (GRCh38.p14)"⟩].filter (fun r =>
        regexContainsCI r.display_name "human" || regexContainsCI r.name "human")) :=
  (claim_C4_amended ⟨"ENSEMBL_MART_ENSEMBL",
      [⟨"hsapiens_gene_ensembl", "Human genes (GRCh38.p14)"⟩]⟩ "human"
    (by decide)).1 (by decide)

/-- Supporting lemma: the selection body of `extract_homology_attributes`,
applied to a homology table in which each of the three queried species
matches exactly two rows with qualifiers among the two queried ones,
yields exactly `3 × 2 = 6` attribute names.  This is the behavior the
claim (and the module docstring, `base.py` lines 140-148) expects of the
program; the defect recorded in `post_init_homology` keeps the program
from ever reaching it. -/
theorem extract_homology_from_complete_length (hm : List HomologyRow)
    (h : ∀ sp ∈ ["human", "mmusculus", "zebrafish"],
      ((species_rows hm sp).filter (fun r =>
        (["ensembl_gene", "perc_id"] : List String).contains r.qualifier_name)).length = 2) :
    (extract_homology_from hm ["human", "mmusculus", "zebrafish"]
      ["ensembl_gene", "perc_id"]).length = 6 := by
  have h1 := h "human" (by simp)
  have h2 := h "mmusculus" (by simp)
  have h3 := h "zebrafish" (by simp)
  simp only [extract_homology_from, List.map_cons, List.map_nil,
    List.flatten_cons, List.flatten_nil, List.filter_append, List.length_map,
    List.length_append, List.append_nil, List.filter_nil]
  rw [h1, h2, h3]

/-- Claim C2 (code bug): the claim — echoed by the module docstring
(`base.py` lines 140-148) and the spec's testable property — expects
`extract_homology_attributes` for the given species and qualifier lists to
return `3 × 2 = 6` attribute names "rather than failing".  The program
always fails instead: `__post_init__` (line 386) assigns a local
`_homology` and never initializes the field, so the first statement
`hm = self.homology` (line 665) raises `AttributeError` on every call
(first conjunct), even on an attribute table holding every (species,
qualifier) combination.  The table derivation and selection sitting behind
the defect would deliver exactly the expected six names (second and third
conjuncts). -/
theorem claim_C2 :
    extract_homology_attributes post_init_homology
      [⟨"hsapiens_homolog_ensembl_gene", "Human gene stable ID", "", false⟩,
       ⟨"hsapiens_homolog_perc_id",
        "%id. target Human gene identical to query gene", "", false⟩,
       ⟨"mmusculus_homolog_ensembl_gene", "Mouse gene stable ID", "", false⟩,
       ⟨"mmusculus_homolog_perc_id",
        "%id. target Mouse gene identical to query gene", "", false⟩,
       ⟨"drerio_homolog_ensembl_gene", "Zebrafish gene stable ID", "", false⟩,
       ⟨"drerio_homolog_perc_id",
        "%id. target Zebrafish gene identical to query gene", "", false⟩,
       ⟨"ensembl_gene_id", "Gene stable ID", "", true⟩]
      ["human", "mmusculus", "zebrafish"] ["ensembl_gene", "perc_id"] =
      .error "\x27DataSet\x27 object has no attribute \x27_homology\x27" ∧
    derive_homology
      [⟨"hsapiens_homolog_ensembl_gene", "Human gene stable ID", "", false⟩,
       ⟨"hsapiens_homolog_perc_id",
        "%id. target Human gene identical to query gene", "", false⟩,
       ⟨"mmusculus_homolog_ensembl_gene", "Mouse gene stable ID", "", false⟩,
       ⟨"mmusculus_homolog_perc_id",
        "%id. target Mouse gene identical to query gene", "", false⟩,
       ⟨"drerio_homolog_ensembl_gene", "Zebrafish gene stable ID", "", false⟩,
       ⟨"drerio_homolog_perc_id",
        "%id. target Zebrafish gene identical to query gene", "", false⟩,
       ⟨"ensembl_gene_id", "Gene stable ID", "", true⟩] =
      some
        [⟨"hsapiens_homolog_ensembl_gene", "Human gene stable ID",
          "hsapiens", "ensembl_gene", "Human ", "gene stable ID"⟩,
         ⟨"hsapiens_homolog_perc_id",
          "%id. target Human gene identical to query gene", "hsapiens", "perc_id",
          "Human ", "%id. target gene identical to query gene"⟩,
         ⟨"mmusculus_homolog_ensembl_gene", "Mouse gene stable ID",
          "mmusculus", "ensembl_gene", "Mouse ", "gene stable ID"⟩,
         ⟨"mmusculus_homolog_perc_id",
          "%id. target Mouse gene identical to query gene", "mmusculus", "perc_id",
          "Mouse ", "%id. target gene identical to query gene"⟩,
         ⟨"drerio_homolog_ensembl_gene", "Zebrafish gene stable ID",
          "drerio", "ensembl_gene", "Zebrafish ", "gene stable ID"⟩,
         ⟨"drerio_homolog_perc_id",
          "%id. target Zebrafish gene identical to query gene", "drerio", "perc_id",
          "Zebrafish ", "%id. target gene identical to query gene"⟩] ∧
    (extract_homology_from
      [⟨"hsapiens_homolog_ensembl_gene", "Human gene stable ID",
        "hsapiens", "ensembl_gene", "Human ", "gene stable ID"⟩,
       ⟨"hsapiens_homolog_perc_id",
        "%id. target Human gene identical to query gene", "hsapiens", "perc_id",
        "Human ", "%id. target gene identical to query gene"⟩,
       ⟨"mmusculus_homolog_ensembl_gene", "Mouse gene stable ID",
        "mmusculus", "ensembl_gene", "Mouse ", "gene stable ID"⟩,
       ⟨"mmusculus_homolog_perc_id",
        "%id. target Mouse gene identical to query gene", "mmusculus", "perc_id",
        "Mouse ", "%id. target gene identical to query gene"⟩,
       ⟨"drerio_homolog_ensembl_gene", "Zebrafish gene stable ID",
        "drerio", "ensembl_gene", "Zebrafish ", "gene stable ID"⟩,
       ⟨"drerio_homolog_perc_id",
        "%id. target Zebrafish gene identical to query gene", "drerio", "perc_id",
        "Zebrafish ", "%id. target gene identical to query gene"⟩]
      ["human", "mmusculus", "zebrafish"] ["ensembl_gene", "perc_id"]).length = 6 := by
  refine ⟨rfl, by decide, rfl⟩

/-- Claim C5 (confirmed): the attribute row built from an
`AttributeDescription` sitting on the attribute page with index `i`
belongs to the populated attribute list, and its default flag is true if
and only if the XML marks the description `default="true"` AND the page is
the first one (`i = 0`); in particular a default-marked description on any
later page yields a row with default false. -/
theorem claim_C5 (pages : List (List AttributeDescription)) (i : Nat)
    (page : List AttributeDescription) (d : AttributeDescription)
    (hp : pages[i]? = some page) (hd : d ∈ page) :
    mkAttribute i d ∈ populate_attributes pages ∧
    ((mkAttribute i d).default = true ↔ (d.default.getD "" = "true" ∧ i = 0)) := by
  constructor
  · have h := mem_populate_attributes_aux pages 0 i page d hp hd
    simpa [populate_attributes] using h
  · simp [mkAttribute, Bool.and_eq_true, beq_iff_eq]

/-- Witness for C5: a description marked `default="true"` on the second
page (index 1) is populated with default false. -/
theorem claim_C5_witness :
    mkAttribute 1 ⟨"homologs", some "Homologs", some "", some "true"⟩ ∈
      populate_attributes
        [[⟨"ensembl_gene_id", some "Gene stable ID", some "", some "true"⟩],
         [⟨"homologs", some "Homologs", some "", some "true"⟩]] ∧
    ((mkAttribute 1 ⟨"homologs", some "Homologs", some "", some "true"⟩).default = true ↔
      ((some "true" : Option String).getD "" = "true" ∧ 1 = 0)) :=
  claim_C5
    [[⟨"ensembl_gene_id", some "Gene stable ID", some "", some "true"⟩],
     [⟨"homologs", some "Homologs", some "", some "true"⟩]]
    1 [⟨"homologs", some "Homologs", some "", some "true"⟩]
    ⟨"homologs", some "Homologs", some "", some "true"⟩ (by decide) (by decide)

/-- Claim C6 (confirmed): a filter row selected in `fetch` (its internal
name or display name is a key of the user's filter dictionary) for which
neither the internal name nor the display name resolves to a non-`None`
value makes `add_filters` raise the fatal input error naming the missing
key (the row's internal name), and makes the whole `fetch` fail before any
query is submitted (the HTTP request happens only on the `.ok` branch). -/
theorem claim_C6 (ds : DataSet) (fq : List (String × PyVal)) (row : Filter)
    (attrs : Option (List String)) (u : Bool)
    (hrow : row ∈ select_filters ds.filters (fq.map (fun p => p.1)))
    (h1 : lookupVal fq row.name = Option.none)
    (h2 : lookupVal fq row.display_name = Option.none) :
    add_filters row fq =
      .error ("There is no value specified for key \x27" ++ row.name ++ "\x27") ∧
    ∃ msg, fetch ds attrs (some fq) u = .error msg := by
  have herr : add_filters row fq =
      .error ("There is no value specified for key \x27" ++ row.name ++ "\x27") := by
    simp [add_filters, h1, h2]
  refine ⟨herr, ?_⟩
  obtain ⟨e', he'⟩ := mapExcept_error_of_mem (f := fun g => add_filters g fq) hrow herr
  exact ⟨e', by simp [fetch, filter_nodes, he']⟩

/-- Witness for C6: a filter selected through its display name but bound to
`None` aborts a concrete fetch. -/
theorem claim_C6_witness :
    add_filters ⟨"transcript_tsl", "Transcript Support Level", "", "boolean", "", false, []⟩
      [("Transcript Support Level", PyVal.none)] =
      .error ("There is no value specified for key \x27transcript_tsl\x27") ∧
    ∃ msg, fetch
      ⟨"hsapiens_gene_ensembl", "default", [],
       [⟨"transcript_tsl", "Transcript Support Level", "", "boolean", "", false, []⟩]⟩
      Option.none (some [("Transcript Support Level", PyVal.none)]) true = .error msg :=
  claim_C6
    ⟨"hsapiens_gene_ensembl", "default", [],
     [⟨"transcript_tsl", "Transcript Support Level", "", "boolean", "", false, []⟩]⟩
    [("Transcript Support Level", PyVal.none)]
    ⟨"transcript_tsl", "Transcript Support Level", "", "boolean", "", false, []⟩
    Option.none true (by decide) (by decide) (by decide)

/-- Claim C7 (code bug): the claim describes the homology-table derivation
the spec intends (section 4.3), and the derivation body of the source does
satisfy it — but the program never reaches that body: `populate_homology`
evaluates `len(self._homology)` (line 473) before anything else, even
before `not force`, and the `_homology` slot is never initialized
(`__post_init__` line 386 assigns a local), so every call raises
`AttributeError` (first conjunct).  The second conjunct verifies the claim
against the unreachable derivation body: every derived row comes from an
attribute whose internal name contains `"homolog"`, carries exactly the
species and qualifier captured by `<species>_homolog_<qualifier>` from its
attribute name, and every homolog-containing attribute whose name matches
the pattern contributes a row; non-matching names contribute none (every
row's name matches, by the membership half). -/
theorem claim_C7 :
    (∀ (force : Bool) (attributes : List Attribute),
      populate_homology post_init_homology force attributes =
        .error "\x27DataSet\x27 object has no attribute \x27_homology\x27") ∧
    (∀ (attributes : List Attribute) (hm : List HomologyRow),
      derive_homology attributes = some hm →
      (∀ r ∈ hm, isInfixOfList ("homolog".data) r.name.data = true ∧
        match_homology r.name = some (r.specie_name, r.qualifier_name)) ∧
      (∀ a ∈ attributes, isInfixOfList ("homolog".data) a.name.data = true →
        ∀ s q, match_homology a.name = some (s, q) →
        ∃ r ∈ hm, r.name = a.name ∧ r.specie_name = s ∧ r.qualifier_name = q)) := by
  refine ⟨fun _ _ => rfl, ?_⟩
  intro attributes hm h
  constructor
  · intro r hr
    obtain ⟨t, ht, hft⟩ := mapRows_mem_source h r hr
    obtain ⟨a, ha, hpa⟩ := List.mem_filterMap.mp ht
    obtain ⟨p, hp, hpt⟩ := Option.map_eq_some'.mp hpa
    obtain ⟨haf, hinf⟩ := List.mem_filter.mp ha
    unfold homology_row at hft
    cases hl : lookupLast (species_mapper attributes) t.2.1 with
    | none => rw [hl] at hft; cases hft
    | some lbl =>
      rw [hl] at hft
      have hr' := Option.some.inj hft
      subst hr'
      subst hpt
      exact ⟨hinf, by rw [hp]⟩
  · intro a ha hinf s q hmq
    have ha' : a ∈ homolog_filter attributes := List.mem_filter.mpr ⟨ha, hinf⟩
    have hparsed : (a, s, q) ∈ parsed_homology attributes :=
      List.mem_filterMap.mpr ⟨a, ha', by rw [hmq]; rfl⟩
    obtain ⟨r, hr, hfr⟩ := mapRows_mem_target h _ hparsed
    unfold homology_row at hfr
    cases hl : lookupLast (species_mapper attributes) s with
    | none => rw [hl] at hfr; cases hfr
    | some lbl =>
      rw [hl] at hfr
      have hr' := Option.some.inj hfr
      subst hr'
      exact ⟨_, hr, rfl, rfl, rfl⟩

/-- Witness for C7: even `force=True` on a concrete homolog-bearing
attribute table raises, and the derivation-body characterization holds at
a concrete table with two parsable homolog attributes and one ordinary
attribute. -/
theorem claim_C7_witness :
    populate_homology post_init_homology true
        [⟨"hsapiens_homolog_ensembl_gene", "Human gene stable ID", "", false⟩] =
      .error "\x27DataSet\x27 object has no attribute \x27_homology\x27" ∧
    ((∀ r ∈ [⟨"hsapiens_homolog_ensembl_gene", "Human gene stable ID",
              "hsapiens", "ensembl_gene", "Human ", "gene stable ID"⟩,
            (⟨"hsapiens_homolog_perc_id", "%id target Human gene identical to query gene",
              "hsapiens", "perc_id", "Human ",
              "%id target gene identical to query gene"⟩ : HomologyRow)],
        isInfixOfList ("homolog".data) r.name.data = true ∧
        match_homology r.name = some (r.specie_name, r.qualifier_name)) ∧
    (∀ a ∈ [⟨"hsapiens_homolog_ensembl_gene", "Human gene stable ID", "", false⟩,
            ⟨"hsapiens_homolog_perc_id", "%id target Human gene identical to query gene",
              "", false⟩,
            (⟨"ensembl_gene_id", "Gene stable ID", "", true⟩ : Attribute)],
        isInfixOfList ("homolog".data) a.name.data = true →
        ∀ s q, match_homology a.name = some (s, q) →
        ∃ r ∈ [⟨"hsapiens_homolog_ensembl_gene", "Human gene stable ID",
                 "hsapiens", "ensembl_gene", "Human ", "gene stable ID"⟩,
               (⟨"hsapiens_homolog_perc_id", "%id target Human gene identical to query gene",
                 "hsapiens", "perc_id", "Human ",
                 "%id target gene identical to query gene"⟩ : HomologyRow)],
          r.name = a.name ∧ r.specie_name = s ∧ r.qualifier_name = q)) :=
  ⟨claim_C7.1 true [⟨"hsapiens_homolog_ensembl_gene", "Human gene stable ID", "", false⟩],
   claim_C7.2
    [⟨"hsapiens_homolog_ensembl_gene", "Human gene stable ID", "", false⟩,
     ⟨"hsapiens_homolog_perc_id", "%id target Human gene identical to query gene", "", false⟩,
     ⟨"ensembl_gene_id", "Gene stable ID", "", true⟩]
    [⟨"hsapiens_homolog_ensembl_gene", "Human gene stable ID",
      "hsapiens", "ensembl_gene", "Human ", "gene stable ID"⟩,
     ⟨"hsapiens_homolog_perc_id", "%id target Human gene identical to query gene",
      "hsapiens", "perc_id", "Human ", "%id target gene identical to query gene"⟩]
    (by decide)⟩

/-- Claim C8 (confirmed): every query document that `fetch` successfully
builds has a root `Query` element carrying exactly the instance's virtual
schema name, the `CSV` formatter, the header flag `"1"`, a `uniqueRows`
flag that is `"1"` exactly when `only_unique` is true and `"0"` otherwise,
and the constant `datasetConfigVersion="0.6"`; and exactly one child node,
a `Dataset` element whose `name` is the dataset's name. -/
theorem claim_C8 (ds : DataSet) (attrs : Option (List String))
    (fs : Option (List (String × PyVal))) (u : Bool) (q : XmlElem)
    (h : fetch ds attrs fs u = .ok q) :
    q.tag = "Query" ∧
    q.attrs = [("virtualSchemaName", ds.virtual_schema), ("formatter", "CSV"),
               ("header", "1"), ("uniqueRows", if u then "1" else "0"),
               ("datasetConfigVersion", "0.6")] ∧
    ∃ children, q.children =
      [.elem "Dataset" [("name", ds.name), ("interface", "default")] children] := by
  unfold fetch at h
  cases hfn : filter_nodes ds fs with
  | error e => rw [hfn] at h; cases h
  | ok fns =>
    rw [hfn] at h
    have hq := Except.ok.inj h
    subst hq
    exact ⟨rfl, rfl, _, rfl⟩

/-- Witness for C8: the query built for a concrete dataset with one default
attribute and no filters. -/
theorem claim_C8_witness :
    (XmlElem.elem "Query"
      [("virtualSchemaName", "default"), ("formatter", "CSV"), ("header", "1"),
       ("uniqueRows", "1"), ("datasetConfigVersion", "0.6")]
      [.elem "Dataset" [("name", "hsapiens_gene_ensembl"), ("interface", "default")]
        [.elem "Attribute" [("name", "ensembl_gene_id")] []]]).tag = "Query" ∧
    (XmlElem.elem "Query"
      [("virtualSchemaName", "default"), ("formatter", "CSV"), ("header", "1"),
       ("uniqueRows", "1"), ("datasetConfigVersion", "0.6")]
      [.elem "Dataset" [("name", "hsapiens_gene_ensembl"), ("interface", "default")]
        [.elem "Attribute" [("name", "ensembl_gene_id")] []]]).attrs =
      [("virtualSchemaName", "default"), ("formatter", "CSV"),
       ("header", "1"), ("uniqueRows", if true then "1" else "0"),
       ("datasetConfigVersion", "0.6")] ∧
    ∃ children, (XmlElem.elem "Query"
      [("virtualSchemaName", "default"), ("formatter", "CSV"), ("header", "1"),
       ("uniqueRows", "1"), ("datasetConfigVersion", "0.6")]
      [.elem "Dataset" [("name", "hsapiens_gene_ensembl"), ("interface", "default")]
        [.elem "Attribute" [("name", "ensembl_gene_id")] []]]).children =
      [.elem "Dataset" [("name", "hsapiens_gene_ensembl"), ("interface", "default")]
        children] :=
  claim_C8
    ⟨"hsapiens_gene_ensembl", "default",
     [⟨"ensembl_gene_id", "Gene stable ID", "", true⟩], []⟩
    Option.none Option.none true
    (XmlElem.elem "Query"
      [("virtualSchemaName", "default"), ("formatter", "CSV"), ("header", "1"),
       ("uniqueRows", "1"), ("datasetConfigVersion", "0.6")]
      [.elem "Dataset" [("name", "hsapiens_gene_ensembl"), ("interface", "default")]
        [.elem "Attribute" [("name", "ensembl_gene_id")] []]])
    rfl

/-- Claim C9 (confirmed): the fallback to default-flagged attributes
happens only when the `attributes` argument is `None`: a fetch whose
attribute list matches no table row (in particular the empty list) builds a
query whose `Dataset` node has zero `Attribute` children, whereas a fetch
with `attributes = None` builds one `Attribute` child per default-flagged
table row. -/
theorem claim_C9 (ds : DataSet) (u : Bool) (ns : List String)
    (h : ∀ a ∈ ds.attributes, ns.contains a.name = false ∧ ns.contains a.display_name = false) :
    fetch ds (some ns) Option.none u =
      .ok (.elem "Query"
        [("virtualSchemaName", ds.virtual_schema), ("formatter", "CSV"), ("header", "1"),
         ("uniqueRows", if u then "1" else "0"), ("datasetConfigVersion", "0.6")]
        [.elem "Dataset" [("name", ds.name), ("interface", "default")] []]) ∧
    fetch ds Option.none Option.none u =
      .ok (.elem "Query"
        [("virtualSchemaName", ds.virtual_schema), ("formatter", "CSV"), ("header", "1"),
         ("uniqueRows", if u then "1" else "0"), ("datasetConfigVersion", "0.6")]
        [.elem "Dataset" [("name", ds.name), ("interface", "default")]
          ((ds.attributes.filter (fun a => a.default)).map
            (fun a => add_attributes a.name))]) := by
  have hsel : select_attributes ds.attributes (some ns) = [] := by
    apply List.filter_eq_nil_iff.mpr
    intro a ha
    have h1 := (h a ha).1
    have h2 := (h a ha).2
    simp at h1 h2 ⊢
    exact ⟨h1, h2⟩
  constructor
  · simp [fetch, filter_nodes, hsel]
  · simp [fetch, filter_nodes, select_attributes]

/-- Witness for C9: a dataset with one default attribute fetched with an
empty attribute list versus `None`. -/
theorem claim_C9_witness :
    fetch ⟨"hsapiens_gene_ensembl", "default",
        [⟨"ensembl_gene_id", "Gene stable ID", "", true⟩], []⟩
      (some []) Option.none true =
      .ok (.elem "Query"
        [("virtualSchemaName", "default"), ("formatter", "CSV"), ("header", "1"),
         ("uniqueRows", if true then "1" else "0"), ("datasetConfigVersion", "0.6")]
        [.elem "Dataset" [("name", "hsapiens_gene_ensembl"), ("interface", "default")] []]) ∧
    fetch ⟨"hsapiens_gene_ensembl", "default",
        [⟨"ensembl_gene_id", "Gene stable ID", "", true⟩], []⟩
      Option.none Option.none true =
      .ok (.elem "Query"
        [("virtualSchemaName", "default"), ("formatter", "CSV"), ("header", "1"),
         ("uniqueRows", if true then "1" else "0"), ("datasetConfigVersion", "0.6")]
        [.elem "Dataset" [("name", "hsapiens_gene_ensembl"), ("interface", "default")]
          (([(⟨"ensembl_gene_id", "Gene stable ID", "", true⟩ : Attribute)].filter
              (fun a => a.default)).map (fun a => add_attributes a.name))]) :=
  claim_C9
    ⟨"hsapiens_gene_ensembl", "default",
     [⟨"ensembl_gene_id", "Gene stable ID", "", true⟩], []⟩
    true [] (by decide)

end PyMart
